import Mathlib

/-!
Verification of the image-captioning / video-summarizing backend.

The repository contains several near-duplicate iterations of one Express
service.  This file gives a shallow embedding of the algorithmic core of
those iterations:

* the binary-search image compressor `compressImageFromBuffer` of
  `server.js` (identical in `part_000`), modelled by `qsearch` /
  `compressImage`, with the proportional downscaling step modelled by
  `downscale`;
* the ordered transcript-candidate loop of `summarizeYouTubeVideo`
  (`server.js`, `part_000`), modelled by `transcriptLoop` /
  `resolveTranscript`, together with the 8000-character truncation
  (`finalTranscript`) and the summary pipeline `summarizeYouTubeVideo`;
* the generation-model fallback loops: `tryModels` for the variant in the
  second document of `server.js` (404 → next candidate, any other error →
  rethrow immediately) and `tryModelsAlt` for the `part_001` variant
  (a non-404 error is rethrown only when it happens on the last candidate);
* the optional-chaining extraction
  `data.candidates?.[0]?.content?.parts?.[0]?.text` (`extractText`) and the
  two ways it is consumed: `captionFromResponse` (throws on a falsy
  caption) and `summaryFromResponse` (falls back to the placeholder
  string);
* the `/caption` and `/summarize` HTTP handlers, with traces recording the
  outbound calls each request performs.

External effects (sharp, youtube-captions-scraper, axios) are modelled as
explicit function parameters; machine sizes are `Nat` byte counts, and the
JavaScript float comparisons of the compressor (`sizeKB <= targetKB`,
`Math.abs(sizeKB - targetKB) < 10` with `sizeKB = length / 1024`) are
represented exactly by the integer comparisons `len ≤ 1024 * targetKB` and
`absDiff len (1024 * targetKB) < 10 * 1024`, which agree with the float
arithmetic for all realistic byte counts (division by 1024 and the
subtraction are exact in double precision there).
-/

namespace CaptionServer

/-! ### Transcript data model -/

/-- One caption fragment returned by the transcript source; only its `text`
field is consumed (`transcript.map(t => t.text)`).  JavaScript strings are
modelled as lists of characters. -/
structure CaptionItem where
  text : List Char
deriving DecidableEq

/-- Outcome of one `getSubtitles` call raced against the 10 s timer:
either it resolves with a (possibly empty) list of fragments, or it rejects
(fetch error or timeout; the `catch { continue; }` treats both alike). -/
inductive FetchOutcome where
  | success (items : List CaptionItem)
  | failure
deriving DecidableEq

/-- The fixed ordered candidate list of `summarizeYouTubeVideo` in
`server.js`: Hindi, English, then the unqualified auto request. -/
def transcriptLangs : List (Option String × String) :=
  [(some "hi", "Hindi"), (some "en", "English"), (none, "Auto")]

/-- Candidate names used by the `part_001` variant (nested try/catch with
the same order; the auto candidate is reported as Auto-detected). -/
def transcriptLangsAlt : List (Option String × String) :=
  [(some "hi", "Hindi"), (some "en", "English"), (none, "Auto-detected")]

/-- The `for (const lang of langs) { try { ... break } catch { continue } }`
loop.  Returns the list of candidates that were actually fetched (in
order) and, when some fetch resolved, the resolved fragments together with
the display name of that candidate.  A successful fetch breaks the loop even
when its result is empty; a rejection moves on to the next candidate. -/
def transcriptLoop (fetch : Option String → FetchOutcome) :
    List (Option String × String) →
      List (Option String) × Option (List CaptionItem × String)
  | [] => ([], none)
  | (code, name) :: rest =>
    match fetch code with
    | .success t => ([code], some (t, name))
    | .failure =>
      let r := transcriptLoop fetch rest
      (code :: r.1, r.2)

/-- The transcript-resolution stage of `summarizeYouTubeVideo`: run the
candidate loop, then `if (!transcript || transcript.length === 0) throw
new Error("No transcript available")`. -/
def resolveTranscript (fetch : Option String → FetchOutcome) :
    Except String (List CaptionItem × String) :=
  match (transcriptLoop fetch transcriptLangs).2 with
  | none => .error "No transcript available"
  | some (t, name) =>
    if t.length = 0 then .error "No transcript available" else .ok (t, name)

/-- Model of `transcript.map(t => t.text).join(" ")`. -/
def joinFragments (items : List CaptionItem) : List Char :=
  List.intercalate [' '] (items.map CaptionItem.text)

/-- Constant `const maxLen = 8000`. -/
def maxLen : Nat := 8000

/-- The marker appended on truncation (`+ "..."`). -/
def truncMarker : List Char := ['.', '.', '.']

/-- Truncation `transcriptText.length > maxLen ? transcriptText.substring(0, maxLen)
+ "..." : transcriptText`. -/
def finalTranscript (txt : List Char) : List Char :=
  if maxLen < txt.length then txt.take maxLen ++ truncMarker else txt

/-! ### Generation-endpoint response model -/

/-- Element `parts[i]`, possibly without a `text` field. -/
structure GenPart where
  text : Option String
deriving DecidableEq

/-- Field `content`, whose `parts` array may be absent. -/
structure GenContent where
  parts : Option (List GenPart)
deriving DecidableEq

/-- One element of `candidates`; its `content` may be absent. -/
structure GenCandidate where
  content : Option GenContent
deriving DecidableEq

/-- The `response.data` of a structurally successful (HTTP 200) call to the
generation endpoint; the `candidates` array itself may be absent. -/
structure GenData where
  candidates : Option (List GenCandidate)
deriving DecidableEq

/-- The optional-chaining extraction
`data.candidates?.[0]?.content?.parts?.[0]?.text`. -/
def extractText (d : GenData) : Option String :=
  ((((d.candidates.bind List.head?).bind GenCandidate.content).bind
      GenContent.parts).bind List.head?).bind GenPart.text

/-- Caption extraction in the `/caption` handler:
`if (!caption) throw new Error("No caption returned")`; the thrown message
is surfaced by the catch branch.  `!caption` is also true for the empty
string. -/
def captionFromResponse (d : GenData) : Except String String :=
  match extractText d with
  | some c => if c = "" then .error "No caption returned" else .ok c
  | none => .error "No caption returned"

/-- Summary extraction in `summarizeYouTubeVideo`:
`...?.text || "No summary generated."` — the placeholder replaces an
absent (or empty, hence falsy) text and the call still succeeds. -/
def summaryFromResponse (d : GenData) : String :=
  match extractText d with
  | some s => if s = "" then "No summary generated." else s
  | none => "No summary generated."

/-! ### Summarize pipeline (first document of `server.js`) -/

/-- Successful result of `summarizeYouTubeVideo` in `server.js`. -/
structure SummarizeOk where
  summary : String
  transcriptLanguage : String
deriving DecidableEq

/-- Trace of the outbound calls one summarize request performs:
which transcript candidates were fetched, and the prompts of the
generation-endpoint requests that were issued. -/
structure PipeTrace where
  fetchCalls : List (Option String)
  genPrompts : List (List Char)
deriving DecidableEq

/-- The summary prompt
`Provide a concise summary ... key points:\n\n${finalTranscript}`. -/
def mkPrompt (t : List Char) : List Char :=
  ("Provide a concise summary of this YouTube video transcript " ++
    "in 3-4 key points:").toList ++ ['\n', '\n'] ++ t

/-- Function `summarizeYouTubeVideo` of the first document of `server.js`:
transcript candidate loop, emptiness check, join + truncation, then a
single generation request whose structurally successful response is
modelled by `gen`. -/
def summarizeYouTubeVideo (fetch : Option String → FetchOutcome)
    (gen : List Char → GenData) : Except String SummarizeOk × PipeTrace :=
  let l := transcriptLoop fetch transcriptLangs
  match l.2 with
  | none => (.error "No transcript available", ⟨l.1, []⟩)
  | some (t, lang) =>
    if t.length = 0 then (.error "No transcript available", ⟨l.1, []⟩)
    else
      let prompt := mkPrompt (finalTranscript (joinFragments t))
      (.ok ⟨summaryFromResponse (gen prompt), lang⟩, ⟨l.1, [prompt]⟩)

/-- Validation test of the 11-character pattern of letters, digits,
hyphen and underscore applied to `videoId`. -/
def isValidVideoId (v : String) : Bool :=
  v.length = 11 && v.toList.all (fun c => c.isAlphanum || c = '-' || c = '_')

/-- The `/summarize` handler of the first document of `server.js`:
missing or empty `videoId` → 400 `videoId is required`; pattern failure →
400 `Invalid videoId format`; otherwise run the pipeline (200 on success,
500 with the thrown message otherwise).  `fetch` takes the video id and
the language code. -/
def summarizeHandlerMain (videoId : Option String)
    (fetch : String → Option String → FetchOutcome)
    (gen : List Char → GenData) :
    Nat × Except String SummarizeOk × PipeTrace :=
  match videoId with
  | none => (400, .error "videoId is required", ⟨[], []⟩)
  | some v =>
    if v = "" then (400, .error "videoId is required", ⟨[], []⟩)
    else if isValidVideoId v then
      let r := summarizeYouTubeVideo (fetch v) gen
      match r.1 with
      | .ok s => (200, .ok s, r.2)
      | .error e => (500, .error e, r.2)
    else (400, .error "Invalid videoId format", ⟨[], []⟩)

/-! ### Model-fallback loops -/

/-- Outcome of one axios call to the generation endpoint for a candidate
model: a structurally successful response, or an error carrying
`error.response?.status` (`none` when there was no HTTP response). -/
inductive GenResp where
  | ok (d : GenData)
  | err (status : Option Nat)
deriving DecidableEq

/-- Result of the model-fallback loop. -/
inductive FallbackResult where
  | success (model : String) (d : GenData)
  | fatal (status : Option Nat)
  | allFailed
deriving DecidableEq

/-- Constant `const modelNames` listing the three candidate models. -/
def modelNames : List String := ["gemini-1.5-flash", "gemini-1.5-pro", "gemini-pro"]

/-- The fallback loop of the second document of `server.js`: on a 404
`continue`, on any other error `throw error` immediately; if the loop
exhausts the list without a response, the all-models-failed error is
thrown.  The first component is the list of candidates attempted. -/
def tryModels (resp : String → GenResp) :
    List String → List String × FallbackResult
  | [] => ([], .allFailed)
  | m :: rest =>
    match resp m with
    | .ok d => ([m], .success m d)
    | .err s =>
      if s = some 404 then
        let r := tryModels resp rest
        (m :: r.1, r.2)
      else ([m], .fatal s)

/-- The fallback loop of `part_001`: on a 404 log and fall through to the
next candidate; on any other error `throw` only when
`modelNames.indexOf(modelName) === modelNames.length - 1` (the last
candidate) — otherwise the error is swallowed and the loop continues.
Exhausting the loop without a response yields the all-failed error. -/
def tryModelsAlt (resp : String → GenResp) :
    List String → List String × FallbackResult
  | [] => ([], .allFailed)
  | m :: rest =>
    match resp m with
    | .ok d => ([m], .success m d)
    | .err s =>
      if rest.isEmpty then
        if s = some 404 then ([m], .allFailed) else ([m], .fatal s)
      else
        let r := tryModelsAlt resp rest
        (m :: r.1, r.2)

/-! ### `part_001` summarize pipeline (for the `/api/summarize` handler) -/

/-- Successful result of `summarizeYouTubeVideo` in `part_001`. -/
structure SummarizeOkAlt where
  summary : String
  transcriptLanguage : String
  modelUsed : Option String
deriving DecidableEq

/-- Model of `String.prototype.trim()` on a character list. -/
def jsTrim (l : List Char) : List Char :=
  ((l.dropWhile Char.isWhitespace).reverse.dropWhile Char.isWhitespace).reverse

/-- The language-dependent prompt of `part_001`. -/
def altPrompt (lang : String) (txt : List Char) : List Char :=
  (if lang = "Hindi" then
      ("Summarize the following Hindi transcript of a YouTube video " ++
        "in Hindi. Provide a comprehensive summary covering the main points:").toList
    else
      ("Summarize the following English transcript of a YouTube video. " ++
        "Provide a comprehensive summary covering the main points:").toList) ++
    ['\n', '\n'] ++ txt

/-- Function `summarizeYouTubeVideo` of `part_001`: presence check on the id,
nested-try transcript acquisition (same order, no timeout), emptiness
check, `join(" ").trim()` with a minimum length of 10, then the
`tryModelsAlt` fallback loop and the placeholder summary extraction.
`part_001` performs no truncation.  Error strings of upstream axios
failures are summarised as a fixed message, which no claim inspects. -/
def summarizeYouTubeVideoAlt (videoId : String)
    (fetch : String → Option String → FetchOutcome)
    (resp : String → GenResp) : Except String SummarizeOkAlt × PipeTrace :=
  if videoId = "" then (.error "Invalid video ID provided", ⟨[], []⟩)
  else
    let l := transcriptLoop (fetch videoId) transcriptLangsAlt
    match l.2 with
    | none => (.error "No transcript available", ⟨l.1, []⟩)
    | some (t, lang) =>
      if t.length = 0 then
        (.error "No transcript data available for this video", ⟨l.1, []⟩)
      else
        let txt := jsTrim (joinFragments t)
        if txt.length < 10 then
          (.error "Transcript too short to summarize", ⟨l.1, []⟩)
        else
          let prompt := altPrompt lang txt
          let fb := tryModelsAlt resp modelNames
          let gp := fb.1.map (fun _ => prompt)
          match fb.2 with
          | .success m d =>
            (.ok ⟨summaryFromResponse d, lang, some m⟩, ⟨l.1, gp⟩)
          | .fatal _ => (.error "Request failed with status code", ⟨l.1, gp⟩)
          | .allFailed =>
            (.error "All Gemini models failed to generate summary", ⟨l.1, gp⟩)

/-- The `/api/summarize` handler of `part_001`: it checks only that
`videoId` is present (truthy) — there is no format validation — and then
runs the pipeline. -/
def summarizeHandlerAlt (videoId : Option String)
    (fetch : String → Option String → FetchOutcome)
    (resp : String → GenResp) :
    Nat × Except String SummarizeOkAlt × PipeTrace :=
  match videoId with
  | none => (400, .error "videoId is required", ⟨[], []⟩)
  | some v =>
    if v = "" then (400, .error "videoId is required", ⟨[], []⟩)
    else
      let r := summarizeYouTubeVideoAlt v fetch resp
      match r.1 with
      | .ok s => (200, .ok s, r.2)
      | .error e => (500, .error e, r.2)

/-! ### Compressor -/

/-- Image formats the sharp pipeline can emit. -/
inductive ImgFormat where
  | jpeg
  | png
  | webp
deriving DecidableEq

/-- Result of `sharp(buffer).metadata()`: the native dimensions. -/
structure ImgMeta where
  width : Nat
  height : Nat
deriving DecidableEq

/-- Model of `Math.round`, i.e. floor of `x + 1/2`. -/
def jsRound (x : ℚ) : ℤ := Int.floor (x + 1 / 2)

/-- Constant `const maxDim = 1920`. -/
def maxDim : Nat := 1920

/-- The downscaling step of `compressImageFromBuffer`: when either native
dimension exceeds 1920 both are multiplied by
`Math.min(maxDim / width, maxDim / height)` and rounded; otherwise they
are kept. -/
def downscale (w h : Nat) : Nat × Nat :=
  if maxDim < w ∨ maxDim < h then
    let scale : ℚ := min ((maxDim : ℚ) / w) ((maxDim : ℚ) / h)
    ((jsRound (w * scale)).toNat, (jsRound (h * scale)).toNat)
  else (w, h)

/-- A buffer produced by `image.resize(w, h).jpeg({ quality }).toBuffer()`:
its encoding format, the dimensions and quality it was encoded with, and
its length in bytes. -/
structure EncBuffer where
  fmt : ImgFormat
  width : Nat
  height : Nat
  quality : Nat
  byteLength : Nat
deriving DecidableEq

/-- One sharp JPEG encode; `sz` models the encoder by giving the byte
length produced for given dimensions and quality. -/
def sharpJpegEncode (sz : Nat → Nat → Nat → Nat) (w h q : Nat) : EncBuffer :=
  ⟨ImgFormat.jpeg, w, h, q, sz w h q⟩

/-- Model of `Math.abs(a - b)` on naturals. -/
def absDiff (a b : Nat) : Nat := if a ≤ b then b - a else a - b

/-- The binary-search quality loop of `compressImageFromBuffer`.  `f q` is
the byte length of the encode at quality `q`; `last` is the quality of the
most recently produced buffer (the loop returns whatever buffer was
encoded last).  Each iteration encodes at the midpoint quality, moves
`minQ`/`maxQ`, and breaks once the size is within 10 KB of the target.
`fuel` is an upper bound on the number of iterations; the initial call
supplies more fuel than the range `[10, 95]` can consume. -/
def qsearch (f : Nat → Nat) (targetKB : Nat) :
    Nat → Nat → Nat → Option Nat → Option Nat
  | 0, _, _, last => last
  | fuel + 1, minQ, maxQ, last =>
    if minQ ≤ maxQ then
      let q := (minQ + maxQ) / 2
      let s := f q
      let minQ2 := if s ≤ 1024 * targetKB then q + 1 else minQ
      let maxQ2 := if s ≤ 1024 * targetKB then maxQ else q - 1
      if absDiff s (1024 * targetKB) < 10 * 1024 then some q
      else qsearch f targetKB fuel minQ2 maxQ2 (some q)
    else last

/-- Fuel for `qsearch`; the range `[10, 95]` shrinks every iteration, so
86 iterations already suffice. -/
def searchFuel : Nat := 100

/-- Function `compressImageFromBuffer`: read the metadata, downscale, then binary
search the JPEG quality in `[10, 95]` and return the last encoded buffer.
`sz w h q` models the byte length sharp produces for the resized
dimensions and quality. -/
def compressImage (sz : Nat → Nat → Nat → Nat) (m : ImgMeta) (targetKB : Nat) :
    Option EncBuffer :=
  let d := downscale m.width m.height
  (qsearch (fun q => sz d.1 d.2 q) targetKB searchFuel 10 95 none).map
    (fun q => sharpJpegEncode sz d.1 d.2 q)

/-- The linear quality step-down loop of the `part_001` compressor
`compressToTargetSize`: `while (buffer.length / 1024 > targetKB &&
quality > 10) { quality -= 5; buffer = ...jpeg({ quality })... }`.
`f q` is the byte length of the JPEG encode at quality `q`; the function
returns the quality of the buffer the loop ends with. -/
def stepDownLoop (f : Nat → Nat) (targetKB : Nat) (quality : Nat) : Nat :=
  if h : 1024 * targetKB < f quality ∧ 10 < quality then
    stepDownLoop f targetKB (quality - 5)
  else quality
termination_by quality
decreasing_by omega

/-- Function `compressToTargetSize` of `part_001`: encode the input as
JPEG at quality 80, then lower the quality by 5 while the buffer exceeds
the target and the quality is above 10, returning the last buffer.  It
reads no metadata and performs no resize, so the buffer keeps the native
dimensions of the input. -/
def compressToTargetSize (sz : Nat → Nat → Nat → Nat) (m : ImgMeta)
    (targetKB : Nat) : EncBuffer :=
  sharpJpegEncode sz m.width m.height
    (stepDownLoop (fun q => sz m.width m.height q) targetKB 80)

/-! ### `/caption` handler (first document of `server.js`) -/

/-- Decidable equality for `Except`, used to evaluate the model on
concrete inputs. -/
instance instDecEqExcept {ε α : Type} [DecidableEq ε] [DecidableEq α] :
    DecidableEq (Except ε α)
  | .error e, .error f =>
    if h : e = f then .isTrue (by rw [h]) else .isFalse (by simp [h])
  | .error _, .ok _ => .isFalse (by simp)
  | .ok _, .error _ => .isFalse (by simp)
  | .ok a, .ok b =>
    if h : a = b then .isTrue (by rw [h]) else .isFalse (by simp [h])

/-- An uploaded file: its declared mime type and the result of decoding
its bytes (`sharp(buffer).metadata()` — an error message when the bytes
are not a decodable image). -/
structure Upload where
  mimetype : String
  meta : Except String ImgMeta
deriving DecidableEq

/-- Field `inline_data` of the generation request body. -/
structure InlineData where
  mime_type : String
  data : EncBuffer
deriving DecidableEq

/-- One element of `parts` in the generation request body. -/
structure ReqPart where
  inline_data : Option InlineData
  text : Option String
deriving DecidableEq

/-- The caption prompt (abridged; no claim inspects its content). -/
def captionPrompt : String :=
  "You are a top-tier social media strategist with a flair for viral content."

/-- The request body built by the `/caption` handler: the compressed
buffer inlined with `mime_type: "image/jpeg"`, followed by the prompt. -/
def captionBody (buf : EncBuffer) : List ReqPart :=
  [⟨some ⟨"image/jpeg", buf⟩, none⟩, ⟨none, some captionPrompt⟩]

/-- Outcome of the axios call of the `/caption` handler. -/
inductive AxiosOutcome where
  | ok (d : GenData)
  | err (msg : String)
deriving DecidableEq

/-- A JSON response body of the `/caption` endpoint; absent fields are
`none`. -/
structure JsonResp where
  success : Bool
  caption : Option String
  message : Option String
  error : Option String
deriving DecidableEq

/-- The `/caption` handler: missing file → 400 with a `message` field (not
`error`); any error thrown inside the try block → 500 with
`{success: false, error}`; success → 200 with the caption.  The last
component lists the generation request bodies that were sent. -/
def captionHandler (file : Option Upload) (sz : Nat → Nat → Nat → Nat)
    (send : List ReqPart → AxiosOutcome) :
    Nat × JsonResp × List (List ReqPart) :=
  match file with
  | none => (400, ⟨false, none, some "No image uploaded", none⟩, [])
  | some f =>
    match f.meta with
    | .error e => (500, ⟨false, none, none, some e⟩, [])
    | .ok m =>
      match compressImage sz m 200 with
      | none => (500, ⟨false, none, none, some "Cannot read properties of undefined"⟩, [])
      | some buf =>
        let body := captionBody buf
        match send body with
        | .err e => (500, ⟨false, none, none, some e⟩, [body])
        | .ok d =>
          match captionFromResponse d with
          | .ok c => (200, ⟨true, some c, none, none⟩, [body])
          | .error e => (500, ⟨false, none, none, some e⟩, [body])

/-! ### Helper lemmas -/

theorem joinFragments_singleton (l : List Char) : joinFragments [⟨l⟩] = l := by
  simp [joinFragments, List.intercalate]

/-! ### Claim C6 — transcript truncation -/

/-- Claim C6: the concatenated caption text (fragments joined with single
spaces, order preserved) is truncated to its first 8000 characters with
the marker appended when it exceeds 8000 characters, and passed through
unmodified otherwise; the final transcript never exceeds 8003
characters. -/
theorem c6_transcript_truncation (items : List CaptionItem) :
    (finalTranscript (joinFragments items)).length ≤ maxLen + 3 ∧
    ((joinFragments items).length ≤ maxLen →
      finalTranscript (joinFragments items) = joinFragments items) ∧
    (maxLen < (joinFragments items).length →
      finalTranscript (joinFragments items)
          = (joinFragments items).take maxLen ++ truncMarker ∧
        (finalTranscript (joinFragments items)).length = maxLen + 3 ∧
        (joinFragments items).take maxLen <+: joinFragments items) := by
  unfold finalTranscript
  by_cases h : maxLen < (joinFragments items).length
  · rw [if_pos h]
    have hlen : ((joinFragments items).take maxLen ++ truncMarker).length
        = maxLen + 3 := by
      rw [List.length_append, List.length_take]
      simp only [truncMarker, List.length_cons, List.length_nil]
      omega
    exact ⟨by omega, fun hle => by omega,
      fun _ => ⟨rfl, hlen, List.take_prefix _ _⟩⟩
  · rw [if_neg h]
    exact ⟨by omega, fun _ => rfl, fun hlt => absurd hlt h⟩

/-- Witness for C6 at the sample lengths given in the spec: a 9000-character
transcript is truncated, a 500-character one passes through. -/
theorem c6_witness :
    maxLen < (joinFragments [⟨List.replicate 9000 'a'⟩]).length ∧
    finalTranscript (joinFragments [⟨List.replicate 9000 'a'⟩])
      = (joinFragments [⟨List.replicate 9000 'a'⟩]).take maxLen ++ truncMarker ∧
    (joinFragments [⟨List.replicate 500 'a'⟩]).length ≤ maxLen ∧
    finalTranscript (joinFragments [⟨List.replicate 500 'a'⟩])
      = joinFragments [⟨List.replicate 500 'a'⟩] := by
  have h9 : maxLen < (joinFragments [⟨List.replicate 9000 'a'⟩]).length := by
    rw [joinFragments_singleton, List.length_replicate]; norm_num [maxLen]
  have h5 : (joinFragments [⟨List.replicate 500 'a'⟩]).length ≤ maxLen := by
    rw [joinFragments_singleton, List.length_replicate]; norm_num [maxLen]
  exact ⟨h9, ((c6_transcript_truncation _).2.2 h9).1, h5,
    (c6_transcript_truncation _).2.1 h5⟩

/-! ### Claim C4 — missing text at the extraction path -/

/-- Claim C4 (amended): when a structurally successful response carries no
text at `candidates?.[0]?.content?.parts?.[0]?.text`, the caption path
fails with the `No caption returned` error, but the summary path does
not fail — it substitutes the placeholder `No summary generated.` and
succeeds. -/
theorem c4_missing_text (d : GenData) (h : extractText d = none) :
    captionFromResponse d = .error "No caption returned" ∧
    summaryFromResponse d = "No summary generated." := by
  unfold captionFromResponse summaryFromResponse
  rw [h]
  exact ⟨rfl, rfl⟩

/-- Witness for C4 at the response with no `candidates` field. -/
theorem c4_witness :
    captionFromResponse ⟨none⟩ = .error "No caption returned" ∧
    summaryFromResponse ⟨none⟩ = "No summary generated." :=
  c4_missing_text ⟨none⟩ rfl

/-- Transcript source used by the C4 counterexample: a Hindi transcript is
available. -/
def c4fetch : Option String → FetchOutcome := fun c =>
  if c = some "hi" then .success [⟨"hello world".toList⟩] else .failure

/-- Counterexample to C4 as stated: a 200-equivalent generation response
whose `candidates` array is empty has no text at the extraction path, yet
the summary pipeline succeeds (with the placeholder summary) instead of
failing. -/
theorem c4_counterexample :
    extractText ⟨some []⟩ = none ∧
    (summarizeYouTubeVideo c4fetch (fun _ => ⟨some []⟩)).1
      = .ok ⟨"No summary generated.", "Hindi"⟩ :=
  ⟨rfl, rfl⟩

/-! ### Claim C2 — generation-model fallback -/

/-- Claim C2 (amended): in both fallback loops a 404 moves to the next
candidate and exhausting all candidates on 404s yields the
all-models-failed error; a non-404 error is fatal immediately (no later
candidate is attempted) in the `server.js` loop, while in the `part_001`
loop a non-404 error is fatal only on the final candidate — on any
earlier candidate the error is swallowed and the loop advances. -/
theorem c2_model_fallback (resp : String → GenResp) :
    (∀ m rest d, resp m = .ok d →
        tryModels resp (m :: rest) = ([m], .success m d)) ∧
    (∀ m rest s, resp m = .err s → s ≠ some 404 →
        tryModels resp (m :: rest) = ([m], .fatal s)) ∧
    (∀ m rest, resp m = .err (some 404) →
        tryModels resp (m :: rest)
          = (m :: (tryModels resp rest).1, (tryModels resp rest).2)) ∧
    (∀ ms, (∀ m ∈ ms, resp m = .err (some 404)) →
        tryModels resp ms = (ms, .allFailed)) ∧
    (∀ m s, resp m = .err s → s ≠ some 404 →
        tryModelsAlt resp [m] = ([m], .fatal s)) ∧
    (∀ m rest s, resp m = .err s → rest ≠ [] →
        tryModelsAlt resp (m :: rest)
          = (m :: (tryModelsAlt resp rest).1, (tryModelsAlt resp rest).2)) ∧
    (∀ ms, (∀ m ∈ ms, resp m = .err (some 404)) →
        tryModelsAlt resp ms = (ms, .allFailed)) := by
  refine ⟨?_, ?_, ?_, ?_, ?_, ?_, ?_⟩
  · intro m rest d h; simp [tryModels, h]
  · intro m rest s h hs; simp [tryModels, h, hs]
  · intro m rest h; simp [tryModels, h]
  · intro ms hms
    induction ms with
    | nil => simp [tryModels]
    | cons m rest ih =>
      have hm := hms m (List.mem_cons_self m rest)
      have hrest := ih (fun x hx => hms x (List.mem_cons_of_mem m hx))
      simp [tryModels, hm, hrest]
  · intro m s h hs; simp [tryModelsAlt, h, hs]
  · intro m rest s h hrest
    cases rest with
    | nil => exact absurd rfl hrest
    | cons b bs => simp [tryModelsAlt, h]
  · intro ms hms
    induction ms with
    | nil => simp [tryModelsAlt]
    | cons m rest ih =>
      have hm := hms m (List.mem_cons_self m rest)
      have hrest := ih (fun x hx => hms x (List.mem_cons_of_mem m hx))
      cases rest with
      | nil => simp [tryModelsAlt, hm]
      | cons b bs =>
        have hstep : tryModelsAlt resp (m :: b :: bs)
            = (m :: (tryModelsAlt resp (b :: bs)).1,
                (tryModelsAlt resp (b :: bs)).2) := by
          simp [tryModelsAlt, hm]
        rw [hstep, hrest]

/-- Generation endpoint used by the C2 counterexample: the first candidate
model fails with HTTP 429 (not a 404), later candidates succeed. -/
def c2resp : String → GenResp := fun m =>
  if m = "gemini-1.5-flash" then .err (some 429)
  else .ok ⟨some [⟨some ⟨some [⟨some "summary text"⟩]⟩⟩]⟩

/-- Counterexample to C2 as stated: in the `part_001` fallback loop a
non-404 error (HTTP 429) on the first candidate does not fail the
operation — the loop attempts, and here succeeds with, the next
candidate. -/
theorem c2_counterexample :
    (tryModelsAlt c2resp modelNames).1
      = ["gemini-1.5-flash", "gemini-1.5-pro"] ∧
    (tryModelsAlt c2resp modelNames).2
      = .success "gemini-1.5-pro" ⟨some [⟨some ⟨some [⟨some "summary text"⟩]⟩⟩]⟩ :=
  ⟨rfl, rfl⟩

/-- Witness for C2 at concrete endpoints: a non-404 stops the `server.js`
loop at the first candidate, all-404 exhausts either loop with the
all-models-failed result, and the `part_001` loop advances past a non-404
on a non-final candidate. -/
theorem c2_witness :
    tryModels (fun _ => GenResp.err (some 500))
        ["gemini-1.5-flash", "gemini-1.5-pro", "gemini-pro"]
      = (["gemini-1.5-flash"], .fatal (some 500)) ∧
    tryModels (fun _ => GenResp.err (some 404))
        ["gemini-1.5-flash", "gemini-1.5-pro", "gemini-pro"]
      = (["gemini-1.5-flash", "gemini-1.5-pro", "gemini-pro"], .allFailed) ∧
    tryModelsAlt (fun _ => GenResp.err (some 500))
        ["gemini-1.5-flash", "gemini-1.5-pro", "gemini-pro"]
      = ("gemini-1.5-flash" ::
          (tryModelsAlt (fun _ => GenResp.err (some 500))
            ["gemini-1.5-pro", "gemini-pro"]).1,
        (tryModelsAlt (fun _ => GenResp.err (some 500))
          ["gemini-1.5-pro", "gemini-pro"]).2) ∧
    tryModelsAlt (fun _ => GenResp.err (some 404))
        ["gemini-1.5-flash", "gemini-1.5-pro", "gemini-pro"]
      = (["gemini-1.5-flash", "gemini-1.5-pro", "gemini-pro"], .allFailed) := by
  refine ⟨?_, ?_, ?_, ?_⟩
  · exact (c2_model_fallback (fun _ => GenResp.err (some 500))).2.1
      "gemini-1.5-flash" ["gemini-1.5-pro", "gemini-pro"] (some 500) rfl (by decide)
  · exact (c2_model_fallback (fun _ => GenResp.err (some 404))).2.2.2.1
      ["gemini-1.5-flash", "gemini-1.5-pro", "gemini-pro"] (fun m _ => rfl)
  · exact (c2_model_fallback (fun _ => GenResp.err (some 500))).2.2.2.2.2.1
      "gemini-1.5-flash" ["gemini-1.5-pro", "gemini-pro"] (some 500) rfl (by simp)
  · exact (c2_model_fallback (fun _ => GenResp.err (some 404))).2.2.2.2.2.2
      ["gemini-1.5-flash", "gemini-1.5-pro", "gemini-pro"] (fun m _ => rfl)

/-! ### Claim C3 — transcript candidate loop -/

/-- Claim C3 (amended): the resolver tries the fixed candidates in order
and never retries one (the attempted list is a prefix of the candidate
list); an error or timeout advances to the next candidate; but any
successful fetch — including one with an empty result — stops the loop
and records the name of that candidate, and an empty successful result then
makes the whole resolution fail instead of advancing to the next
candidate. -/
theorem c3_transcript_candidates (fetch : Option String → FetchOutcome) :
    (∀ code name rest t, fetch code = .success t →
        transcriptLoop fetch ((code, name) :: rest) = ([code], some (t, name))) ∧
    (∀ code name rest, fetch code = .failure →
        transcriptLoop fetch ((code, name) :: rest)
          = (code :: (transcriptLoop fetch rest).1, (transcriptLoop fetch rest).2)) ∧
    (∀ cands, (transcriptLoop fetch cands).1 <+: cands.map Prod.fst) ∧
    (∀ t name, (transcriptLoop fetch transcriptLangs).2 = some (t, name) →
        t ≠ [] → resolveTranscript fetch = .ok (t, name)) ∧
    (∀ t name, (transcriptLoop fetch transcriptLangs).2 = some (t, name) →
        t = [] → resolveTranscript fetch = .error "No transcript available") ∧
    ((transcriptLoop fetch transcriptLangs).2 = none →
        resolveTranscript fetch = .error "No transcript available") := by
  refine ⟨?_, ?_, ?_, ?_, ?_, ?_⟩
  · intro code name rest t h; simp [transcriptLoop, h]
  · intro code name rest h; simp [transcriptLoop, h]
  · intro cands
    induction cands with
    | nil => simp [transcriptLoop]
    | cons p rest ih =>
      obtain ⟨code, name⟩ := p
      cases h : fetch code with
      | success t =>
        simp only [transcriptLoop, h]
        exact ⟨rest.map Prod.fst, rfl⟩
      | failure =>
        simp only [transcriptLoop, h, List.map_cons]
        exact List.cons_prefix_cons.2 ⟨rfl, ih⟩
  · intro t name h ht
    unfold resolveTranscript
    rw [h]
    simp [List.length_eq_zero, ht]
  · intro t name h ht
    unfold resolveTranscript
    rw [h]
    simp [ht]
  · intro h
    unfold resolveTranscript
    rw [h]

/-- Transcript source used by the C3 counterexample: Hindi resolves with
an empty list, English with a non-empty transcript. -/
def c3fetch : Option String → FetchOutcome := fun c =>
  if c = some "hi" then .success []
  else if c = some "en" then .success [⟨"hello".toList⟩]
  else .failure

/-- Counterexample to C3 as stated: when the Hindi fetch succeeds with an
empty result the loop does not proceed to English (which would succeed
non-empty) — only Hindi is attempted, its name is recorded, and the whole
resolution fails. -/
theorem c3_counterexample :
    (transcriptLoop c3fetch transcriptLangs).1 = [some "hi"] ∧
    (transcriptLoop c3fetch transcriptLangs).2 = some ([], "Hindi") ∧
    resolveTranscript c3fetch = .error "No transcript available" ∧
    c3fetch (some "en") = .success [⟨"hello".toList⟩] :=
  ⟨rfl, rfl, rfl, rfl⟩

/-- Witness for C3: a first-candidate success stops the loop at once. -/
theorem c3_witness :
    transcriptLoop (fun _ => FetchOutcome.success [⟨['h', 'i']⟩])
        [(some "hi", "Hindi"), (some "en", "English"), (none, "Auto")]
      = ([some "hi"], some ([⟨['h', 'i']⟩], "Hindi")) :=
  (c3_transcript_candidates (fun _ => FetchOutcome.success [⟨['h', 'i']⟩])).1
    (some "hi") "Hindi" [(some "en", "English"), (none, "Auto")] [⟨['h', 'i']⟩] rfl

/-! ### Claim C7 — all transcript candidates fail -/

/-- Claim C7: when every transcript candidate fails (rejection, timeout,
or an empty successful result), both summarize pipelines fail with a
no-transcript error and issue no generation-endpoint request: the
`server.js` pipeline with `No transcript available`, the `part_001`
pipeline with one of its two no-transcript messages. -/
theorem c7_no_generation_call (fetch : Option String → FetchOutcome)
    (gen : List Char → GenData) (v : String) (hv : v ≠ "")
    (fetch2 : String → Option String → FetchOutcome) (resp : String → GenResp)
    (h : ∀ p ∈ transcriptLangs, fetch p.1 = .failure ∨ fetch p.1 = .success [])
    (halt : ∀ p ∈ transcriptLangsAlt,
        fetch2 v p.1 = .failure ∨ fetch2 v p.1 = .success []) :
    (summarizeYouTubeVideo fetch gen).1 = .error "No transcript available" ∧
    (summarizeYouTubeVideo fetch gen).2.genPrompts = [] ∧
    ((summarizeYouTubeVideoAlt v fetch2 resp).1 = .error "No transcript available" ∨
      (summarizeYouTubeVideoAlt v fetch2 resp).1
        = .error "No transcript data available for this video") ∧
    (summarizeYouTubeVideoAlt v fetch2 resp).2.genPrompts = [] := by
  have hmain : (summarizeYouTubeVideo fetch gen).1
        = .error "No transcript available" ∧
      (summarizeYouTubeVideo fetch gen).2.genPrompts = [] := by
    have h1 := h (some "hi", "Hindi") (by simp [transcriptLangs])
    have h2 := h (some "en", "English") (by simp [transcriptLangs])
    have h3 := h (none, "Auto") (by simp [transcriptLangs])
    rcases h1 with h1 | h1 <;> rcases h2 with h2 | h2 <;>
      rcases h3 with h3 | h3 <;>
      simp [summarizeYouTubeVideo, transcriptLangs, transcriptLoop, h1, h2, h3]
  have haux : ((summarizeYouTubeVideoAlt v fetch2 resp).1
          = .error "No transcript available" ∨
        (summarizeYouTubeVideoAlt v fetch2 resp).1
          = .error "No transcript data available for this video") ∧
      (summarizeYouTubeVideoAlt v fetch2 resp).2.genPrompts = [] := by
    have h1 := halt (some "hi", "Hindi") (by simp [transcriptLangsAlt])
    have h2 := halt (some "en", "English") (by simp [transcriptLangsAlt])
    have h3 := halt (none, "Auto-detected") (by simp [transcriptLangsAlt])
    rcases h1 with h1 | h1 <;> rcases h2 with h2 | h2 <;>
      rcases h3 with h3 | h3 <;>
      simp [summarizeYouTubeVideoAlt, hv, transcriptLangsAlt, transcriptLoop,
        h1, h2, h3]
  exact ⟨hmain.1, hmain.2, haux.1, haux.2⟩

/-- Witness for C7: every candidate rejects, in both pipelines. -/
theorem c7_witness :
    (summarizeYouTubeVideo (fun _ => FetchOutcome.failure)
        (fun _ => (⟨none⟩ : GenData))).1 = .error "No transcript available" ∧
    (summarizeYouTubeVideo (fun _ => FetchOutcome.failure)
        (fun _ => (⟨none⟩ : GenData))).2.genPrompts = [] ∧
    ((summarizeYouTubeVideoAlt "dQw4w9WgXcQ" (fun _ _ => FetchOutcome.failure)
          (fun _ => GenResp.err none)).1 = .error "No transcript available" ∨
      (summarizeYouTubeVideoAlt "dQw4w9WgXcQ" (fun _ _ => FetchOutcome.failure)
          (fun _ => GenResp.err none)).1
        = .error "No transcript data available for this video") ∧
    (summarizeYouTubeVideoAlt "dQw4w9WgXcQ" (fun _ _ => FetchOutcome.failure)
        (fun _ => GenResp.err none)).2.genPrompts = [] :=
  c7_no_generation_call _ _ "dQw4w9WgXcQ" (by decide) _ _
    (fun _ _ => Or.inl rfl) (fun _ _ => Or.inl rfl)

/-! ### Claim C5 — videoId validation -/

/-- The candidate loop always fetches the first candidate. -/
theorem transcriptLoop_fst_head (fetch : Option String → FetchOutcome)
    (code : Option String) (name : String)
    (rest : List (Option String × String)) :
    ((transcriptLoop fetch ((code, name) :: rest)).1).head? = some code := by
  cases h : fetch code <;> simp [transcriptLoop, h]

/-- The `part_001` pipeline records exactly the candidate-loop fetches as
its transcript-source calls, whatever happens downstream. -/
theorem altPipeline_fetchCalls (v : String) (hv : v ≠ "")
    (fetch : String → Option String → FetchOutcome) (resp : String → GenResp) :
    (summarizeYouTubeVideoAlt v fetch resp).2.fetchCalls
      = (transcriptLoop (fetch v) transcriptLangsAlt).1 := by
  unfold summarizeYouTubeVideoAlt
  rw [if_neg hv]
  cases hl : (transcriptLoop (fetch v) transcriptLangsAlt).2 with
  | none => simp [hl]
  | some p =>
    obtain ⟨t, lang⟩ := p
    by_cases ht : t.length = 0
    · simp [hl, ht]
    · by_cases hx : (jsTrim (joinFragments t)).length < 10
      · simp [hl, ht, hx]
      · cases hfb : (tryModelsAlt resp modelNames).2 <;> simp [hl, ht, hx, hfb]

/-- The `part_001` handler forwards the pipeline trace unchanged for a
non-empty id. -/
theorem handlerAlt_trace (v : String) (hv : v ≠ "")
    (fetch : String → Option String → FetchOutcome) (resp : String → GenResp) :
    (summarizeHandlerAlt (some v) fetch resp).2.2
      = (summarizeYouTubeVideoAlt v fetch resp).2 := by
  cases h : (summarizeYouTubeVideoAlt v fetch resp).1 <;>
    simp [summarizeHandlerAlt, hv, h]

/-- Claim C5 (amended): the `/summarize` handler of `server.js` (and of
`part_000`) rejects a missing or pattern-violating `videoId` with a 400
validation error before any transcript-source call; the `/api/summarize`
handler of `part_001` checks only presence, so any non-empty `videoId` —
valid or not — reaches the transcript source (its first fetch is always
the Hindi candidate). -/
theorem c5_videoid_validation (fetch : String → Option String → FetchOutcome)
    (gen : List Char → GenData) (resp : String → GenResp) :
    (summarizeHandlerMain none fetch gen
        = (400, .error "videoId is required", ⟨[], []⟩)) ∧
    (∀ v, isValidVideoId v = false →
        (summarizeHandlerMain (some v) fetch gen).1 = 400 ∧
        (summarizeHandlerMain (some v) fetch gen).2.2 = ⟨[], []⟩) ∧
    (∀ v, v ≠ "" → isValidVideoId v = false →
        (summarizeHandlerMain (some v) fetch gen).2.1
          = .error "Invalid videoId format") ∧
    (∀ v, v ≠ "" →
        ((summarizeHandlerAlt (some v) fetch resp).2.2.fetchCalls).head?
          = some (some "hi")) := by
  refine ⟨rfl, ?_, ?_, ?_⟩
  · intro v hv
    unfold summarizeHandlerMain
    by_cases he : v = ""
    · simp [he]
    · simp [he, hv]
  · intro v he hv
    unfold summarizeHandlerMain
    simp [he, hv]
  · intro v he
    rw [handlerAlt_trace v he fetch resp, altPipeline_fetchCalls v he fetch resp]
    simpa [transcriptLangsAlt] using
      transcriptLoop_fst_head (fetch v) (some "hi") "Hindi"
        [(some "en", "English"), (none, "Auto-detected")]

/-- Counterexample to C5 as stated: the 10-character identifier
`abcdefghij` fails the 11-character pattern, yet the `part_001`
`/api/summarize` handler performs three transcript-source calls for it
instead of rejecting it first. -/
theorem c5_counterexample :
    isValidVideoId "abcdefghij" = false ∧
    (summarizeHandlerAlt (some "abcdefghij") (fun _ _ => FetchOutcome.failure)
        (fun _ => GenResp.err none)).2.2.fetchCalls
      = [some "hi", some "en", none] :=
  ⟨by decide, rfl⟩

/-- Witness for C5: the `server.js` handler rejects the same 10-character
identifier with a 400 and performs no transcript-source call. -/
theorem c5_witness :
    (summarizeHandlerMain (some "abcdefghij") (fun _ _ => FetchOutcome.failure)
        (fun _ => (⟨none⟩ : GenData))).1 = 400 ∧
    (summarizeHandlerMain (some "abcdefghij") (fun _ _ => FetchOutcome.failure)
        (fun _ => (⟨none⟩ : GenData))).2.2 = ⟨[], []⟩ :=
  (c5_videoid_validation (fun _ _ => FetchOutcome.failure)
      (fun _ => (⟨none⟩ : GenData)) (fun _ => GenResp.err none)).2.1
    "abcdefghij" (by decide)

/-! ### Claim C9 — caption failure response shape -/

/-- Claim C9 (amended): every failing `/caption` response produced inside
the try block carries `{success: false, error: <string>}`, but the
missing-file rejection instead carries `{success: false,
message: "No image uploaded"}` with no `error` field. -/
theorem c9_caption_failure_shape (file : Option Upload)
    (sz : Nat → Nat → Nat → Nat) (send : List ReqPart → AxiosOutcome) :
    (file = none →
        captionHandler file sz send
          = (400, ⟨false, none, some "No image uploaded", none⟩, [])) ∧
    (∀ f, file = some f → (captionHandler file sz send).2.1.success = false →
        ∃ s, (captionHandler file sz send).2.1.error = some s) := by
  constructor
  · intro h; subst h; rfl
  · intro f h hs
    subst h
    cases hm : f.meta with
    | error e => exact ⟨e, by simp [captionHandler, hm]⟩
    | ok m =>
      cases hc : compressImage sz m 200 with
      | none =>
        exact ⟨"Cannot read properties of undefined",
          by simp [captionHandler, hm, hc]⟩
      | some buf =>
        cases hsend : send (captionBody buf) with
        | err e => exact ⟨e, by simp [captionHandler, hm, hc, hsend]⟩
        | ok d =>
          cases hcr : captionFromResponse d with
          | error e => exact ⟨e, by simp [captionHandler, hm, hc, hsend, hcr]⟩
          | ok c =>
            exfalso
            simp [captionHandler, hm, hc, hsend, hcr] at hs

/-- Counterexample to C9 as stated: the failing response to a request with
no uploaded file has no string-valued `error` field — the handler puts the
text under `message`. -/
theorem c9_counterexample :
    (captionHandler none (fun _ _ _ => 0)
        (fun _ => AxiosOutcome.err "x")).2.1.success = false ∧
    (captionHandler none (fun _ _ _ => 0)
        (fun _ => AxiosOutcome.err "x")).2.1.error = none ∧
    (captionHandler none (fun _ _ _ => 0)
        (fun _ => AxiosOutcome.err "x")).2.1.message = some "No image uploaded" :=
  ⟨rfl, rfl, rfl⟩

/-- Witness for C9: a failing request that did upload a file (whose bytes
do not decode) gets a `{success: false, error: <string>}` body. -/
theorem c9_witness :
    ∃ s, (captionHandler (some ⟨"image/png", Except.error "bad image"⟩)
        (fun _ _ _ => 0) (fun _ => AxiosOutcome.err "x")).2.1.error = some s :=
  (c9_caption_failure_shape (some ⟨"image/png", Except.error "bad image"⟩)
      (fun _ _ _ => 0) (fun _ => AxiosOutcome.err "x")).2
    ⟨"image/png", Except.error "bad image"⟩ rfl rfl

/-! ### Compressor lemmas -/

/-- One-step unfolding of the quality search. -/
theorem qsearch_succ (f : Nat → Nat) (t n minQ maxQ : Nat) (last : Option Nat) :
    qsearch f t (n + 1) minQ maxQ last =
      if minQ ≤ maxQ then
        if absDiff (f ((minQ + maxQ) / 2)) (1024 * t) < 10 * 1024 then
          some ((minQ + maxQ) / 2)
        else
          qsearch f t n
            (if f ((minQ + maxQ) / 2) ≤ 1024 * t then (minQ + maxQ) / 2 + 1
              else minQ)
            (if f ((minQ + maxQ) / 2) ≤ 1024 * t then maxQ
              else (minQ + maxQ) / 2 - 1)
            (some ((minQ + maxQ) / 2))
      else last := rfl

/-- Once the bounds have crossed, the search returns the last buffer. -/
theorem qsearch_gt (f : Nat → Nat) (t fuel minQ maxQ : Nat) (last : Option Nat)
    (h : maxQ < minQ) : qsearch f t fuel minQ maxQ last = last := by
  cases fuel with
  | zero => rfl
  | succ n => rw [qsearch_succ, if_neg (Nat.not_le.2 h)]

/-- Every quality the search can return lies in the initial range. -/
theorem qsearch_range (f : Nat → Nat) (t : Nat) :
    ∀ fuel minQ maxQ, ∀ last : Option Nat, 10 ≤ minQ → maxQ ≤ 95 →
      (∀ q0, last = some q0 → 10 ≤ q0 ∧ q0 ≤ 95) →
      ∀ q, qsearch f t fuel minQ maxQ last = some q → 10 ≤ q ∧ q ≤ 95 := by
  intro fuel
  induction fuel with
  | zero => intro minQ maxQ last _ _ hlast q hq; exact hlast q hq
  | succ n ih =>
    intro minQ maxQ last h1 h2 hlast q hq
    by_cases hle : minQ ≤ maxQ
    · rw [qsearch_succ, if_pos hle] at hq
      have hdm := Nat.div_add_mod (minQ + maxQ) 2
      have hmod : (minQ + maxQ) % 2 < 2 := Nat.mod_lt _ (by norm_num)
      set qm := (minQ + maxQ) / 2 with hqm
      have hqm1 : minQ ≤ qm := by omega
      have hqm2 : qm ≤ maxQ := by omega
      by_cases hd : absDiff (f qm) (1024 * t) < 10 * 1024
      · rw [if_pos hd] at hq
        injection hq with hq
        omega
      · rw [if_neg hd] at hq
        by_cases hfe : f qm ≤ 1024 * t
        · rw [if_pos hfe, if_pos hfe] at hq
          exact ih (qm + 1) maxQ (some qm) (by omega) h2
            (fun q0 h0 => by injection h0 with h0; omega) q hq
        · rw [if_neg hfe, if_neg hfe] at hq
          exact ih minQ (qm - 1) (some qm) h1 (by omega)
            (fun q0 h0 => by injection h0 with h0; omega) q hq
    · rw [qsearch_gt f t (n + 1) minQ maxQ last (by omega)] at hq
      exact hlast q hq

/-- When no quality in the whole range can reach the target, the search
keeps the floor at 10 and walks the ceiling down: it returns either a
probe that broke within the 10 KB tolerance or the quality-10 encode. -/
theorem qsearch_all_over (f : Nat → Nat) (t : Nat)
    (hall : ∀ q, 10 ≤ q → q ≤ 95 → 1024 * t < f q) :
    ∀ fuel maxQ, ∀ last : Option Nat, 10 ≤ maxQ → maxQ ≤ 95 →
      maxQ - 9 ≤ fuel →
      ∃ q, qsearch f t fuel 10 maxQ last = some q ∧
        (f q < 1024 * t + 10 * 1024 ∨ q = 10) := by
  intro fuel
  induction fuel with
  | zero => intro maxQ last h1 _ h3; omega
  | succ n ih =>
    intro maxQ last h1 h2 h3
    rw [qsearch_succ, if_pos h1]
    have hdm := Nat.div_add_mod (10 + maxQ) 2
    have hmod : (10 + maxQ) % 2 < 2 := Nat.mod_lt _ (by norm_num)
    set qm := (10 + maxQ) / 2 with hqm
    have hqm1 : 10 ≤ qm := by omega
    have hqm2 : qm ≤ maxQ := by omega
    have hover : 1024 * t < f qm := hall qm hqm1 (le_trans hqm2 h2)
    have hnotle : ¬ f qm ≤ 1024 * t := by omega
    by_cases hd : absDiff (f qm) (1024 * t) < 10 * 1024
    · rw [if_pos hd]
      refine ⟨qm, rfl, Or.inl ?_⟩
      unfold absDiff at hd
      rw [if_neg hnotle] at hd
      omega
    · rw [if_neg hd, if_neg hnotle, if_neg hnotle]
      by_cases hq10 : 10 ≤ qm - 1
      · exact ih (qm - 1) (some qm) hq10 (by omega) (by omega)
      · have hq : qm = 10 := by omega
        rw [hq]
        refine ⟨10, ?_, Or.inr rfl⟩
        rw [show (10 : Nat) - 1 = 9 from rfl]
        exact qsearch_gt f t n 10 9 (some 10) (by norm_num)

/-! ### Claim C1 — compression target -/

/-- Claim C1 (amended): when no quality in `[10, 95]` can meet the target
(even quality 10 overshoots), the compressor returns a buffer whose size
is within 10 KB of the target or the encoding produced at the minimum
quality 10.  (When some quality does meet the target, the routine returns
the last buffer the binary search encoded, which can exceed
target + 10 KB — see the counterexample.) -/
theorem c1_compress_target (sz : Nat → Nat → Nat → Nat) (m : ImgMeta) (t : Nat)
    (hall : ∀ q, 10 ≤ q → q ≤ 95 →
        1024 * t < sz (downscale m.width m.height).1
            (downscale m.width m.height).2 q) :
    ∃ buf, compressImage sz m t = some buf ∧
      (buf.byteLength < 1024 * t + 10 * 1024 ∨
        buf = sharpJpegEncode sz (downscale m.width m.height).1
                (downscale m.width m.height).2 10) := by
  obtain ⟨q, hq, hdisj⟩ :=
    qsearch_all_over
      (fun q => sz (downscale m.width m.height).1 (downscale m.width m.height).2 q)
      t hall searchFuel 95 none (by norm_num) (le_refl 95)
      (by norm_num [searchFuel])
  refine ⟨sharpJpegEncode sz (downscale m.width m.height).1
      (downscale m.width m.height).2 q, ?_, ?_⟩
  · simp only [compressImage]
    rw [hq]
    rfl
  · rcases hdisj with hlt | h10
    · exact Or.inl hlt
    · rw [h10]
      exact Or.inr rfl

/-- Encoder used by the C1 counterexample: monotone in quality — 150 KB up
to quality 52, 400 KB above. -/
def c1sz : Nat → Nat → Nat → Nat :=
  fun _ _ q => if q ≤ 52 then 153600 else 409600

/-- Counterexample to C1 as stated: with the monotone encoder `c1sz` and a
200 KB target, the binary search ends on an infeasible probe (quality 53,
400 KB) and returns it — larger than target + 10 KB and not the
quality-10 encoding (quality 10 would have met the target). -/
theorem c1_counterexample :
    compressImage c1sz ⟨1000, 800⟩ 200
      = some ⟨ImgFormat.jpeg, 1000, 800, 53, 409600⟩ ∧
    1024 * 200 + 10 * 1024 < 409600 ∧
    (⟨ImgFormat.jpeg, 1000, 800, 53, 409600⟩ : EncBuffer)
      ≠ sharpJpegEncode c1sz 1000 800 10 ∧
    c1sz 1000 800 10 ≤ 1024 * 200 :=
  ⟨by decide, by decide, by decide, by decide⟩

/-- Encoder for the C1 witness: 400 KB at every quality, so even quality
10 overshoots the 200 KB target. -/
def c1szBig : Nat → Nat → Nat → Nat := fun _ _ _ => 409600

/-- Witness for C1: with a target unachievable at any quality the
compressor indeed falls back to the quality-10 encoding (or the
tolerance). -/
theorem c1_witness :
    ∃ buf, compressImage c1szBig ⟨1000, 800⟩ 200 = some buf ∧
      (buf.byteLength < 1024 * 200 + 10 * 1024 ∨
        buf = sharpJpegEncode c1szBig (downscale 1000 800).1
                (downscale 1000 800).2 10) :=
  c1_compress_target c1szBig ⟨1000, 800⟩ 200 (fun _ _ _ => by norm_num [c1szBig])

/-! ### Claim C8 — proportional downscaling -/

/-- Evaluation of `downscale` on dimensions within the bound. -/
theorem downscale_of_small (w h : Nat) (hc : ¬(maxDim < w ∨ maxDim < h)) :
    downscale w h = (w, h) := by
  unfold downscale
  rw [if_neg hc]

/-- Evaluation of `downscale` on dimensions exceeding the bound. -/
theorem downscale_of_big (w h : Nat) (hc : maxDim < w ∨ maxDim < h) :
    downscale w h
      = ((jsRound ((w : ℚ) * min ((maxDim : ℚ) / w) ((maxDim : ℚ) / h))).toNat,
         (jsRound ((h : ℚ) * min ((maxDim : ℚ) / w) ((maxDim : ℚ) / h))).toNat) := by
  unfold downscale
  rw [if_pos hc]

/-- Rounding stays within half a unit above its argument. -/
theorem jsRound_le (x : ℚ) : ((jsRound x : ℚ)) ≤ x + 1 / 2 :=
  Int.floor_le (x + 1 / 2)

/-- Rounding stays within half a unit below its argument. -/
theorem lt_jsRound (x : ℚ) : x - 1 / 2 < ((jsRound x : ℚ)) := by
  have := Int.sub_one_lt_floor (x + 1 / 2)
  unfold jsRound
  linarith

/-- Claim C8: images with both dimensions at most 1920 keep their native
dimensions; otherwise both dimensions are scaled by the uniform rational
factor `min (1920/w) (1920/h)` and rounded, so neither output dimension
exceeds its input dimension, and the aspect ratio is preserved within
rounding tolerance: the cross products `w2 * h` and `h2 * w` differ by at
most `(w + h) / 2`. -/
theorem c8_downscale (w h : Nat) (hw : 0 < w) (hh : 0 < h) :
    (w ≤ maxDim → h ≤ maxDim → downscale w h = (w, h)) ∧
    (downscale w h).1 ≤ w ∧ (downscale w h).2 ≤ h ∧
    2 * |((downscale w h).1 : ℚ) * h - ((downscale w h).2 : ℚ) * w| ≤ w + h := by
  by_cases hc : maxDim < w ∨ maxDim < h
  · have hw0 : (0 : ℚ) < w := by exact_mod_cast hw
    have hh0 : (0 : ℚ) < h := by exact_mod_cast hh
    have hmd0 : (0 : ℚ) < (maxDim : ℚ) := by
      exact_mod_cast (by norm_num [maxDim] : 0 < maxDim)
    rw [downscale_of_big w h hc]
    set r : ℚ := min ((maxDim : ℚ) / w) ((maxDim : ℚ) / h) with hr
    have hr0 : 0 < r := lt_min (div_pos hmd0 hw0) (div_pos hmd0 hh0)
    have hr1 : r < 1 := by
      rcases hc with hcw | hch
      · exact lt_of_le_of_lt (min_le_left _ _)
          ((div_lt_one hw0).2 (by exact_mod_cast hcw))
      · exact lt_of_le_of_lt (min_le_right _ _)
          ((div_lt_one hh0).2 (by exact_mod_cast hch))
    set w2 : ℤ := jsRound ((w : ℚ) * r) with hw2
    set h2 : ℤ := jsRound ((h : ℚ) * r) with hh2
    have haw : (w : ℚ) * r < w := by nlinarith
    have hbh : (h : ℚ) * r < h := by nlinarith
    have hannn : (0 : ℚ) ≤ (w : ℚ) * r := by positivity
    have hbnnn : (0 : ℚ) ≤ (h : ℚ) * r := by positivity
    have hw2nn : 0 ≤ w2 := by
      rw [hw2]
      unfold jsRound
      exact Int.floor_nonneg.2 (by linarith)
    have hh2nn : 0 ≤ h2 := by
      rw [hh2]
      unfold jsRound
      exact Int.floor_nonneg.2 (by linarith)
    have hw2c : ((w2.toNat : ℚ)) = (w2 : ℚ) := by
      have := Int.toNat_of_nonneg hw2nn
      exact_mod_cast congrArg (fun z : ℤ => (z : ℚ)) this
    have hh2c : ((h2.toNat : ℚ)) = (h2 : ℚ) := by
      have := Int.toNat_of_nonneg hh2nn
      exact_mod_cast congrArg (fun z : ℤ => (z : ℚ)) this
    have hw2le : (w2 : ℚ) ≤ (w : ℚ) * r + 1 / 2 := jsRound_le _
    have hw2gt : (w : ℚ) * r - 1 / 2 < (w2 : ℚ) := lt_jsRound _
    have hh2le : (h2 : ℚ) ≤ (h : ℚ) * r + 1 / 2 := jsRound_le _
    have hh2gt : (h : ℚ) * r - 1 / 2 < (h2 : ℚ) := lt_jsRound _
    have hw2w : w2.toNat ≤ w := by
      have hq : (w2 : ℚ) < (w : ℚ) + 1 := by linarith
      have hz : w2 < (w : ℤ) + 1 := by exact_mod_cast hq
      omega
    have hh2h : h2.toNat ≤ h := by
      have hq : (h2 : ℚ) < (h : ℚ) + 1 := by linarith
      have hz : h2 < (h : ℤ) + 1 := by exact_mod_cast hq
      omega
    refine ⟨fun hw' hh' => by omega, hw2w, hh2h, ?_⟩
    have hwd : |(w2 : ℚ) - (w : ℚ) * r| ≤ 1 / 2 :=
      abs_le.2 ⟨by linarith, by linarith⟩
    have hhd : |(h2 : ℚ) - (h : ℚ) * r| ≤ 1 / 2 :=
      abs_le.2 ⟨by linarith, by linarith⟩
    have key : (w2 : ℚ) * h - (h2 : ℚ) * w
        = ((w2 : ℚ) - (w : ℚ) * r) * h - ((h2 : ℚ) - (h : ℚ) * r) * w := by
      ring
    rw [hw2c, hh2c, key]
    have habs : |((w2 : ℚ) - (w : ℚ) * r) * h - ((h2 : ℚ) - (h : ℚ) * r) * w|
        ≤ |(w2 : ℚ) - (w : ℚ) * r| * h + |(h2 : ℚ) - (h : ℚ) * r| * w := by
      calc |((w2 : ℚ) - (w : ℚ) * r) * h - ((h2 : ℚ) - (h : ℚ) * r) * w|
          ≤ |((w2 : ℚ) - (w : ℚ) * r) * h| + |((h2 : ℚ) - (h : ℚ) * r) * w| :=
            abs_sub _ _
        _ = |(w2 : ℚ) - (w : ℚ) * r| * h + |(h2 : ℚ) - (h : ℚ) * r| * w := by
            rw [abs_mul, abs_mul, abs_of_nonneg (le_of_lt hh0),
              abs_of_nonneg (le_of_lt hw0)]
    nlinarith [hwd, hhd, hw0, hh0, habs]
  · rw [downscale_of_small w h hc]
    refine ⟨fun _ _ => rfl, le_refl w, le_refl h, ?_⟩
    have hz : ((w : ℚ)) * h - ((h : ℚ)) * w = 0 := by ring
    rw [hz, abs_zero, mul_zero]
    positivity

/-- Witness for C8 at a 3840 x 2160 image. -/
theorem c8_witness :
    (downscale 3840 2160).1 ≤ 3840 ∧ (downscale 3840 2160).2 ≤ 2160 ∧
    2 * |((downscale 3840 2160).1 : ℚ) * 2160 - ((downscale 3840 2160).2 : ℚ) * 3840|
      ≤ 3840 + 2160 := by
  have h := c8_downscale 3840 2160 (by norm_num) (by norm_num)
  exact ⟨h.2.1, h.2.2.1, by exact_mod_cast h.2.2.2⟩

/-! ### Claim C10 — everything is re-encoded as JPEG -/

/-- The quality of the `part_001` step-down loop started at a multiple of
5 that is at least 10 stays in range: it never drops below 10 and never
exceeds its starting value. -/
theorem stepDownLoop_range (f : Nat → Nat) (t : Nat) :
    ∀ q, q % 5 = 0 → 10 ≤ q →
      10 ≤ stepDownLoop f t q ∧ stepDownLoop f t q ≤ q ∧
        stepDownLoop f t q % 5 = 0 := by
  intro q
  induction q using Nat.strong_induction_on with
  | _ q ih =>
    intro h5 h10
    rw [stepDownLoop]
    split
    · next h =>
      have hrec := ih (q - 5) (by omega) (by omega) (by omega)
      exact ⟨hrec.1, by omega, hrec.2.2⟩
    · next _ => exact ⟨h10, le_refl q, h5⟩

/-- Claim C10: whatever the original format of the upload, every buffer
the binary-search compressor can return is one of the JPEG encodes of the
search (at some quality in `[10, 95]` and the resized dimensions); every
inline image datum in a generation request body the `/caption` handler
sends declares `mime_type "image/jpeg"` and carries a JPEG buffer; and
the `part_001` compressor `compressToTargetSize` likewise always returns
a JPEG encode, at some quality in `[10, 80]` and the native
dimensions. -/
theorem c10_jpeg_invariant (file : Option Upload) (sz : Nat → Nat → Nat → Nat)
    (send : List ReqPart → AxiosOutcome) :
    (∀ m t buf, compressImage sz m t = some buf →
        buf.fmt = ImgFormat.jpeg ∧
        ∃ q, 10 ≤ q ∧ q ≤ 95 ∧
          buf = sharpJpegEncode sz (downscale m.width m.height).1
                  (downscale m.width m.height).2 q) ∧
    (∀ req ∈ (captionHandler file sz send).2.2, ∀ part ∈ req, ∀ idata,
        part.inline_data = some idata →
        idata.mime_type = "image/jpeg" ∧ idata.data.fmt = ImgFormat.jpeg) ∧
    (∀ m t, (compressToTargetSize sz m t).fmt = ImgFormat.jpeg ∧
        ∃ q, 10 ≤ q ∧ q ≤ 80 ∧
          compressToTargetSize sz m t = sharpJpegEncode sz m.width m.height q) := by
  have hcomp : ∀ m t buf, compressImage sz m t = some buf →
      buf.fmt = ImgFormat.jpeg ∧
      ∃ q, 10 ≤ q ∧ q ≤ 95 ∧
        buf = sharpJpegEncode sz (downscale m.width m.height).1
                (downscale m.width m.height).2 q := by
    intro m t buf hbuf
    simp only [compressImage] at hbuf
    cases hq : qsearch
        (fun q => sz (downscale m.width m.height).1 (downscale m.width m.height).2 q)
        t searchFuel 10 95 none with
    | none => rw [hq] at hbuf; simp at hbuf
    | some q =>
      rw [hq] at hbuf
      obtain ⟨hq1, hq2⟩ := qsearch_range
        (fun q => sz (downscale m.width m.height).1 (downscale m.width m.height).2 q)
        t searchFuel 10 95 none (le_refl 10) (le_refl 95)
        (fun q0 h0 => Option.noConfusion h0) q hq
      have hbuf2 : buf = sharpJpegEncode sz (downscale m.width m.height).1
          (downscale m.width m.height).2 q := by
        simpa using hbuf.symm
      rw [hbuf2]
      exact ⟨rfl, q, hq1, hq2, rfl⟩
  refine ⟨hcomp, ?_, ?_⟩
  case refine_2 =>
    intro m t
    have hr := stepDownLoop_range (fun q => sz m.width m.height q) t 80
      (by norm_num) (by norm_num)
    exact ⟨rfl, stepDownLoop (fun q => sz m.width m.height q) t 80,
      hr.1, hr.2.1, rfl⟩
  intro req hreq part hpart idata hidata
  cases file with
  | none => simp [captionHandler] at hreq
  | some f =>
    cases hm : f.meta with
    | error e => simp [captionHandler, hm] at hreq
    | ok m =>
      cases hc : compressImage sz m 200 with
      | none => simp [captionHandler, hm, hc] at hreq
      | some buf =>
        have hfmt := hcomp m 200 buf hc
        have hsent : (captionHandler (some f) sz send).2.2 = [captionBody buf] := by
          cases hsend : send (captionBody buf) with
          | err e => simp [captionHandler, hm, hc, hsend]
          | ok d =>
            cases hcr : captionFromResponse d <;>
              simp [captionHandler, hm, hc, hsend, hcr]
        rw [hsent] at hreq
        have hreq2 : req = captionBody buf := by simpa using hreq
        subst hreq2
        have hpart2 : part = (⟨some ⟨"image/jpeg", buf⟩, none⟩ : ReqPart) ∨
            part = (⟨none, some captionPrompt⟩ : ReqPart) := by
          simpa [captionBody] using hpart
        rcases hpart2 with rfl | rfl
        · have hid : idata = (⟨"image/jpeg", buf⟩ : InlineData) := by
            have := hidata
            simp only at this
            injection this with h
            exact h.symm
          rw [hid]
          exact ⟨rfl, hfmt.1⟩
        · exact absurd hidata (by simp)

/-- Witness for C10: applying the invariant to a concrete encoder run —
the buffer returned by the binary-search compressor is a JPEG encode at
some quality, and so is the buffer of the `part_001` step-down
compressor. -/
theorem c10_witness :
    (∃ q, 10 ≤ q ∧ q ≤ 95 ∧
      (⟨ImgFormat.jpeg, 1000, 800, 95, 102400⟩ : EncBuffer)
        = sharpJpegEncode (fun _ _ _ => 102400) (downscale 1000 800).1
            (downscale 1000 800).2 q) ∧
    (compressToTargetSize (fun _ _ _ => 102400) ⟨1000, 800⟩ 200).fmt
      = ImgFormat.jpeg ∧
    (∃ q, 10 ≤ q ∧ q ≤ 80 ∧
      compressToTargetSize (fun _ _ _ => 102400) ⟨1000, 800⟩ 200
        = sharpJpegEncode (fun _ _ _ => 102400) 1000 800 q) :=
  ⟨((c10_jpeg_invariant none (fun _ _ _ => 102400)
        (fun _ => AxiosOutcome.err "x")).1
      ⟨1000, 800⟩ 200 ⟨ImgFormat.jpeg, 1000, 800, 95, 102400⟩ (by decide)).2,
    ((c10_jpeg_invariant none (fun _ _ _ => 102400)
        (fun _ => AxiosOutcome.err "x")).2.2 ⟨1000, 800⟩ 200).1,
    ((c10_jpeg_invariant none (fun _ _ _ => 102400)
        (fun _ => AxiosOutcome.err "x")).2.2 ⟨1000, 800⟩ 200).2⟩

end CaptionServer
